import Mathlib

/-!
Verification of the MorningRoutine habit-tracking core (`app/page.tsx`).

The embedding models the state/timer/persistence core:
* task ids are `ℕ`; the completion record `CompletedTasks` (a TS record
  mapping ids to the literal `true`) is a `Finset ℕ` of the present keys;
* calendar date keys are abstract day numbers (`ℤ`), with
  `yesterday = today - 1` standing for the source's date arithmetic on
  ISO `YYYY-MM-DD` strings;
* durations (minutes) and the countdown `timeLeft` (seconds) are `ℚ`,
  matching the source's untyped JS numbers;
* local storage is a record: an association list of date-keyed completion
  records, an optional stats record, and an optional last-completed date
  (absence models a missing or unparsable key);
* the browser context (`window` defined) is assumed throughout, as all
  modelled behaviour lives there.
-/

namespace MorningRoutine

/-- Task category enum from the source (`"wellness" | "fitness" | "mindfulness"`). -/
inductive Category where
  | wellness
  | fitness
  | mindfulness
deriving DecidableEq, Repr

/-- The `RoutineTask` interface: id, name, description, duration (minutes), category. -/
structure RoutineTask where
  id : ℕ
  task : String
  description : String
  duration : ℚ
  category : Category
deriving DecidableEq, Repr

/-- The static task list `routine` from the source, verbatim. -/
def routine : List RoutineTask :=
  [ ⟨1, "Hydrate", "Drink water", 1/2, Category.wellness⟩,
    ⟨2, "Stretch", "Quick stretches", 3, Category.fitness⟩,
    ⟨3, "Breathe", "Deep breathing", 5, Category.mindfulness⟩,
    ⟨4, "Core", "Core workout", 8, Category.fitness⟩,
    ⟨5, "Move", "Walk/jog", 10, Category.fitness⟩,
    ⟨6, "Gratitude", "3 grateful thoughts", 2, Category.mindfulness⟩ ]

/-- The ids of the static task list. -/
def routineIds : List ℕ := routine.map RoutineTask.id

/-- `CompletedTasks = Record<number, boolean>` where every stored value is
the literal `true`: modelled as the finite set of present keys. -/
abbrev CompletedTasks := Finset ℕ

/-- A calendar date key (the source's `YYYY-MM-DD` string), abstracted to a
day number so that yesterday is `today - 1`. -/
abbrev DateKey := Int

/-- The persisted stats record `{streak, bestStreak, completedDays}`. -/
structure Stats where
  streak : ℕ
  bestStreak : ℕ
  completedDays : ℕ
deriving DecidableEq, Repr

/-- The zero-initialized stats default used on absence or parse failure. -/
def defaultStats : Stats := ⟨0, 0, 0⟩

/-- The persistent local-storage state: the date-keyed completion records
(`morning-routine-<date>`), the stats record (`morning-routine-stats`,
`none` when the key is absent), and the `last-completed-date` key. -/
structure Storage where
  records : List (DateKey × CompletedTasks)
  statsRec : Option Stats
  lastCompletedDate : Option DateKey
deriving DecidableEq

/-- Storage on a fresh device: no keys present. -/
def initialStorage : Storage := ⟨[], none, none⟩

namespace StorageManager

/-- `localStorage.setItem` on a date-keyed record: overwrite the key. -/
def setRecord (rs : List (DateKey × CompletedTasks)) (k : DateKey)
    (v : CompletedTasks) : List (DateKey × CompletedTasks) :=
  (k, v) :: rs.filter (fun p => p.1 != k)

/-- `StorageManager.getTodayProgress`: the record at today's key, or empty on
absence (and, in the source, on parse failure). -/
def getTodayProgress (st : Storage) (today : DateKey) : CompletedTasks :=
  (st.records.lookup today).getD ∅

/-- `StorageManager.getStats`: the persisted stats or the zero default. -/
def getStats (st : Storage) : Stats :=
  st.statsRec.getD defaultStats

/-- `StorageManager.updateStats`: when the progress map's key count equals
the task-list length and the last completed date is not today, increment
`completedDays`, continue or reset the streak against yesterday, raise
`bestStreak` if overtaken, and stamp `last-completed-date` with today. -/
def updateStats (st : Storage) (today : DateKey) (progress : CompletedTasks) :
    Storage :=
  if progress.card = routine.length then
    let stats := getStats st
    if st.lastCompletedDate ≠ some today then
      let newDays := stats.completedDays + 1
      let newStreak :=
        if st.lastCompletedDate = some (today - 1) then stats.streak + 1 else 1
      let newBest :=
        if newStreak > stats.bestStreak then newStreak else stats.bestStreak
      { st with statsRec := some ⟨newStreak, newBest, newDays⟩,
                lastCompletedDate := some today }
    else st
  else st

/-- `StorageManager.saveTodayProgress`: write today's record, then run the
stats update on the new progress map. -/
def saveTodayProgress (st : Storage) (today : DateKey)
    (progress : CompletedTasks) : Storage :=
  updateStats { st with records := setRecord st.records today progress }
    today progress

/-- `StorageManager.resetToday`: `localStorage.removeItem` on today's key. -/
def resetToday (st : Storage) (today : DateKey) : Storage :=
  { st with records := st.records.filter (fun p => p.1 != today) }

end StorageManager

/-- The in-memory state of the `MorningRoutine` component: the completion
map, the timer engine (`currentTimer`, `timeLeft` in seconds, `isRunning`),
the stats view, and the persistent storage it talks to. -/
structure AppState where
  completedTasks : CompletedTasks
  currentTimer : Option ℕ
  timeLeft : ℚ
  isRunning : Bool
  stats : Stats
  storage : Storage
deriving DecidableEq

/-- The component's initial state on first load over empty storage. -/
def initialState : AppState :=
  ⟨∅, none, 0, false, defaultStats, initialStorage⟩

/-- Derived view `totalCompleted = Object.keys(completedTasks).length`. -/
def totalCompleted (s : AppState) : ℕ := s.completedTasks.card

/-- `toggleTask`: flip the id's membership in the completion map (no
validity check against the task list), persist, refresh the stats view. -/
def toggleTask (s : AppState) (today : DateKey) (taskId : ℕ) : AppState :=
  let newCompleted :=
    if taskId ∈ s.completedTasks then s.completedTasks.erase taskId
    else insert taskId s.completedTasks
  let storage' := StorageManager.saveTodayProgress s.storage today newCompleted
  { s with completedTasks := newCompleted,
           storage := storage',
           stats := StorageManager.getStats storage' }

/-- `startTimer`: pause when the running timer targets the same task,
otherwise retarget the engine at the task with a fresh countdown. -/
def startTimer (s : AppState) (taskId : ℕ) (duration : ℚ) : AppState :=
  if s.currentTimer = some taskId ∧ s.isRunning = true then
    { s with isRunning := false }
  else
    { s with currentTimer := some taskId,
             timeLeft := duration * 60,
             isRunning := true }

/-- `resetRoutine`: clear the completion map, force the engine to idle, and
delete today's persisted record. -/
def resetRoutine (s : AppState) (today : DateKey) : AppState :=
  { s with completedTasks := ∅,
           currentTimer := none,
           timeLeft := 0,
           isRunning := false,
           storage := StorageManager.resetToday s.storage today }

/-- The timer `useEffect` body: while running with time left it only
schedules the next tick; at zero while running with an active task it marks
that task complete, persists, refreshes stats, and idles the engine. -/
def timerEffect (s : AppState) (today : DateKey) : AppState :=
  if s.isRunning = true ∧ s.timeLeft > 0 then s
  else if s.timeLeft = 0 ∧ s.isRunning = true then
    match s.currentTimer with
    | some t =>
        let newCompleted := insert t s.completedTasks
        let storage' :=
          StorageManager.saveTodayProgress s.storage today newCompleted
        { s with completedTasks := newCompleted,
                 isRunning := false,
                 currentTimer := none,
                 storage := storage',
                 stats := StorageManager.getStats storage' }
    | none => s
  else s

/-- One interval tick: fires only while running with time left, decrements
the countdown, then the effect re-runs on the new state (handling expiry). -/
def tick (s : AppState) (today : DateKey) : AppState :=
  if s.isRunning = true ∧ s.timeLeft > 0 then
    timerEffect { s with timeLeft := s.timeLeft - 1 } today
  else s

/-- `n` consecutive ticks. -/
def tickN (n : ℕ) (s : AppState) (today : DateKey) : AppState :=
  (fun s' => tick s' today)^[n] s

/-- A sequence of `toggleTask` calls on a fixed day. -/
def toggleSeq (s : AppState) (today : DateKey) (l : List ℕ) : AppState :=
  l.foldl (fun st i => toggleTask st today i) s

/-- A sequence of stats updates, each with its own date and progress map. -/
def applyUpdates (st : Storage) (l : List (DateKey × CompletedTasks)) :
    Storage :=
  l.foldl (fun acc p => StorageManager.updateStats acc p.1 p.2) st

end MorningRoutine

namespace MorningRoutine

/-! ### Helper lemmas about the storage adapter -/

/-- Removing a key from an association list makes its lookup absent. -/
theorem lookup_filter_self (l : List (DateKey × CompletedTasks)) (k : DateKey) :
    (l.filter (fun p => p.1 != k)).lookup k = none := by
  induction l with
  | nil => rfl
  | cons hd tl ih =>
      obtain ⟨a, b⟩ := hd
      simp only [List.filter_cons]
      by_cases h : a = k
      · rw [if_neg (by simp [h])]
        exact ih
      · rw [if_pos (by simp [bne_iff_ne, h]), List.lookup_cons]
        simp [beq_false_of_ne (Ne.symm h), ih]

/-- Removing one key from an association list leaves every other lookup alone. -/
theorem lookup_filter_ne (l : List (DateKey × CompletedTasks)) (k key : DateKey)
    (hk : k ≠ key) :
    (l.filter (fun p => p.1 != key)).lookup k = l.lookup k := by
  induction l with
  | nil => rfl
  | cons hd tl ih =>
      obtain ⟨a, b⟩ := hd
      simp only [List.filter_cons]
      by_cases h : a = key
      · rw [if_neg (by simp [h]), ih, List.lookup_cons]
        have hka : (k == a) = false :=
          beq_false_of_ne (fun he => hk (he.trans h))
        simp [hka]
      · rw [if_pos (by simp [bne_iff_ne, h]), List.lookup_cons, List.lookup_cons]
        by_cases hka : k = a
        · simp [hka]
        · simp [beq_false_of_ne hka, ih]

/-- `updateStats` is the identity when today is already the last completed date. -/
theorem updateStats_of_lastCompleted_today (st : Storage) (today : DateKey)
    (progress : CompletedTasks) (h : st.lastCompletedDate = some today) :
    StorageManager.updateStats st today progress = st := by
  unfold StorageManager.updateStats
  simp [h]

/-- `updateStats` is the identity when the progress map's size misses the task count. -/
theorem updateStats_of_card_ne (st : Storage) (today : DateKey)
    (progress : CompletedTasks) (h : progress.card ≠ routine.length) :
    StorageManager.updateStats st today progress = st := by
  unfold StorageManager.updateStats
  simp [h]

/-- When today is already credited, a save only rewrites today's record. -/
theorem saveTodayProgress_of_lastCompleted_today (st : Storage) (today : DateKey)
    (progress : CompletedTasks) (h : st.lastCompletedDate = some today) :
    StorageManager.saveTodayProgress st today progress =
      { st with records := StorageManager.setRecord st.records today progress } := by
  unfold StorageManager.saveTodayProgress
  exact updateStats_of_lastCompleted_today _ _ _ h

/-- A stats update never touches the date-keyed completion records. -/
theorem updateStats_records (st : Storage) (today : DateKey)
    (p : CompletedTasks) :
    (StorageManager.updateStats st today p).records = st.records := by
  by_cases h1 : p.card = routine.length
  · by_cases h2 : st.lastCompletedDate = some today
    · rw [updateStats_of_lastCompleted_today st today p h2]
    · unfold StorageManager.updateStats
      rw [if_pos h1, if_pos h2]
  · rw [updateStats_of_card_ne st today p h1]

/-- After a save, the stored records are exactly the overwrite of today's key. -/
theorem saveTodayProgress_records (st : Storage) (today : DateKey)
    (p : CompletedTasks) :
    (StorageManager.saveTodayProgress st today p).records =
      StorageManager.setRecord st.records today p := by
  unfold StorageManager.saveTodayProgress
  rw [updateStats_records]

/-- Overwriting a key makes its lookup return the new value. -/
theorem lookup_setRecord_self (rs : List (DateKey × CompletedTasks))
    (k : DateKey) (v : CompletedTasks) :
    (StorageManager.setRecord rs k v).lookup k = some v := by
  unfold StorageManager.setRecord
  rw [List.lookup_cons]
  simp

/-- C1, counterexample: id 99 is not in the static task list, yet `toggleTask 99`
changes `CompletedTasks` and `startTimer 99` changes the timer state — the
operations are not no-ops on unknown ids. -/
theorem invalidId_not_noop :
    (99 ∉ routineIds) ∧
    (toggleTask initialState 0 99).completedTasks ≠ initialState.completedTasks ∧
    (startTimer initialState 99 1).currentTimer ≠ initialState.currentTimer := by
  decide

/-- C1 (amended): for an id outside the static task list, `toggleTask` flips
that id's membership in `CompletedTasks` and persists the flipped map under
today's storage key, exactly as for a valid id; `startTimer` retargets the
engine at the id with a fresh countdown (or, as for a valid id, pauses when
already running on it) while leaving `CompletedTasks` and persisted storage
untouched; neither raises an error. -/
theorem invalidId_behaves_like_valid (s : AppState) (today : DateKey)
    (taskId : ℕ) (d : ℚ) (h : taskId ∉ routineIds) :
    ((taskId ∈ (toggleTask s today taskId).completedTasks) ↔
        taskId ∉ s.completedTasks) ∧
    ((toggleTask s today taskId).storage.records.lookup today =
        some (toggleTask s today taskId).completedTasks) ∧
    (¬(s.currentTimer = some taskId ∧ s.isRunning = true) →
      (startTimer s taskId d).currentTimer = some taskId ∧
      (startTimer s taskId d).timeLeft = d * 60 ∧
      (startTimer s taskId d).isRunning = true) ∧
    (startTimer s taskId d).completedTasks = s.completedTasks ∧
    (startTimer s taskId d).storage = s.storage := by
  refine ⟨?_, ?_, ?_, ?_, ?_⟩
  · by_cases hm : taskId ∈ s.completedTasks <;> simp [toggleTask, hm]
  · show (StorageManager.saveTodayProgress s.storage today
        (if taskId ∈ s.completedTasks then s.completedTasks.erase taskId
          else insert taskId s.completedTasks)).records.lookup today = _
    rw [saveTodayProgress_records, lookup_setRecord_self]
    rfl
  · intro hpause
    unfold startTimer
    rw [if_neg hpause]
    exact ⟨rfl, rfl, rfl⟩
  · unfold startTimer
    split <;> rfl
  · unfold startTimer
    split <;> rfl

/-- C1 amended, witness at id 99 on the initial state: the toggled map is
persisted and the engine retargets to task 99. -/
theorem invalidId_behaves_like_valid_witness :
    (99 ∉ routineIds) ∧
    (¬(initialState.currentTimer = some 99 ∧ initialState.isRunning = true)) ∧
    ((99 ∈ (toggleTask initialState 0 99).completedTasks) ↔
        99 ∉ initialState.completedTasks) ∧
    ((toggleTask initialState 0 99).storage.records.lookup 0 =
        some (toggleTask initialState 0 99).completedTasks) ∧
    (startTimer initialState 99 1).currentTimer = some 99 :=
  ⟨by decide, by decide,
    (invalidId_behaves_like_valid initialState 0 99 1 (by decide)).1,
    (invalidId_behaves_like_valid initialState 0 99 1 (by decide)).2.1,
    ((invalidId_behaves_like_valid initialState 0 99 1 (by decide)).2.2.1
      (by decide)).1⟩

/-- C2, counterexample: a completion map of six foreign ids (none of them task
ids, in particular task id 1 is absent) still mutates the persisted stats,
because `updateStats` only compares the map's size with the task count. -/
theorem saveTodayProgress_mutates_without_membership :
    (1 ∈ routineIds) ∧
    (1 ∉ ({7, 8, 9, 10, 11, 12} : Finset ℕ)) ∧
    (StorageManager.saveTodayProgress initialStorage 0
        ({7, 8, 9, 10, 11, 12} : Finset ℕ)).statsRec ≠ initialStorage.statsRec := by
  decide

/-- C2 (amended): the Stats record and LastCompletedDate are mutated only when
the completion map's size equals the task count; whenever the size differs,
both are unchanged by the save. -/
theorem saveTodayProgress_stats_frame (st : Storage) (today : DateKey)
    (progress : CompletedTasks) (h : progress.card ≠ routine.length) :
    (StorageManager.saveTodayProgress st today progress).statsRec = st.statsRec ∧
    (StorageManager.saveTodayProgress st today progress).lastCompletedDate =
      st.lastCompletedDate := by
  unfold StorageManager.saveTodayProgress
  rw [updateStats_of_card_ne _ _ _ h]
  exact ⟨rfl, rfl⟩

/-- C2 amended, witness on a three-element map. -/
theorem saveTodayProgress_stats_frame_witness :
    (({1, 2, 3} : Finset ℕ).card ≠ routine.length) ∧
    (StorageManager.saveTodayProgress initialStorage 0
        ({1, 2, 3} : Finset ℕ)).statsRec = initialStorage.statsRec :=
  ⟨by decide, (saveTodayProgress_stats_frame initialStorage 0 {1, 2, 3} (by decide)).1⟩

/-- C3: when the stats update runs on a full-size map and today is not yet
credited, `completedDays` goes up by one, the streak continues from yesterday
or resets to one, and `last-completed-date` becomes today. -/
theorem updateStats_new_day (st : Storage) (today : DateKey)
    (progress : CompletedTasks) (hfull : progress.card = routine.length)
    (hnew : st.lastCompletedDate ≠ some today) :
    (StorageManager.getStats
        (StorageManager.updateStats st today progress)).completedDays =
      (StorageManager.getStats st).completedDays + 1 ∧
    (StorageManager.getStats (StorageManager.updateStats st today progress)).streak =
      (if st.lastCompletedDate = some (today - 1)
        then (StorageManager.getStats st).streak + 1 else 1) ∧
    (StorageManager.updateStats st today progress).lastCompletedDate = some today := by
  unfold StorageManager.updateStats
  rw [if_pos hfull, if_pos hnew]
  exact ⟨rfl, rfl, rfl⟩

/-- C3, witness: a full map on a fresh stats record, day 5 never credited. -/
theorem updateStats_new_day_witness :
    (({1, 2, 3, 4, 5, 6} : Finset ℕ).card = routine.length) ∧
    (initialStorage.lastCompletedDate ≠ some 5) ∧
    (StorageManager.getStats
        (StorageManager.updateStats initialStorage 5
          ({1, 2, 3, 4, 5, 6} : Finset ℕ))).completedDays =
      (StorageManager.getStats initialStorage).completedDays + 1 :=
  ⟨by decide, by decide,
    (updateStats_new_day initialStorage 5 {1, 2, 3, 4, 5, 6}
      (by decide) (by decide)).1⟩

/-- C4: once today is credited (`last-completed-date = today`), any further
save the same day leaves the stats record and the last completed date
unchanged; in particular un-completing and re-completing a task the same day
(two toggles) does not change them. -/
theorem statsUpdate_idempotent_same_day (s : AppState) (today : DateKey)
    (progress : CompletedTasks) (t : ℕ)
    (h : s.storage.lastCompletedDate = some today) :
    ((StorageManager.saveTodayProgress s.storage today progress).statsRec =
        s.storage.statsRec ∧
      (StorageManager.saveTodayProgress s.storage today progress).lastCompletedDate =
        s.storage.lastCompletedDate) ∧
    ((toggleTask (toggleTask s today t) today t).storage.statsRec =
        s.storage.statsRec ∧
      (toggleTask (toggleTask s today t) today t).storage.lastCompletedDate =
        s.storage.lastCompletedDate) := by
  have h1 : ∀ (st : Storage) (p : CompletedTasks),
      st.lastCompletedDate = some today →
      (StorageManager.saveTodayProgress st today p).statsRec = st.statsRec ∧
      (StorageManager.saveTodayProgress st today p).lastCompletedDate =
        st.lastCompletedDate := by
    intro st p hst
    rw [saveTodayProgress_of_lastCompleted_today st today p hst]
    exact ⟨rfl, rfl⟩
  refine ⟨h1 s.storage progress h, ?_⟩
  have hs1 := h1 s.storage
    (if t ∈ s.completedTasks then s.completedTasks.erase t
      else insert t s.completedTasks) h
  have hlast1 : (toggleTask s today t).storage.lastCompletedDate = some today := by
    show (StorageManager.saveTodayProgress s.storage today _).lastCompletedDate = _
    rw [hs1.2, h]
  have hs2 := h1 (toggleTask s today t).storage
    (if t ∈ (toggleTask s today t).completedTasks
      then (toggleTask s today t).completedTasks.erase t
      else insert t (toggleTask s today t).completedTasks) hlast1
  refine ⟨?_, ?_⟩
  · show (StorageManager.saveTodayProgress (toggleTask s today t).storage today _).statsRec = _
    rw [hs2.1]
    show (StorageManager.saveTodayProgress s.storage today _).statsRec = _
    rw [hs1.1]
  · show (StorageManager.saveTodayProgress (toggleTask s today t).storage today _).lastCompletedDate = _
    rw [hs2.2]
    show (StorageManager.saveTodayProgress s.storage today _).lastCompletedDate = _
    rw [hs1.2]

/-- C4, witness: with day 0 already credited, a full-map save keeps the stats
record, and a double toggle of task 1 keeps it too. -/
theorem statsUpdate_idempotent_same_day_witness :
    ((⟨∅, none, 0, false, defaultStats, ⟨[], some ⟨1, 1, 1⟩, some 0⟩⟩ :
        AppState).storage.lastCompletedDate = some 0) ∧
    (StorageManager.saveTodayProgress
        (⟨[], some ⟨1, 1, 1⟩, some 0⟩ : Storage) 0
        ({1, 2, 3, 4, 5, 6} : Finset ℕ)).statsRec = some ⟨1, 1, 1⟩ :=
  ⟨rfl,
    ((statsUpdate_idempotent_same_day
        ⟨∅, none, 0, false, defaultStats, ⟨[], some ⟨1, 1, 1⟩, some 0⟩⟩ 0
        {1, 2, 3, 4, 5, 6} 1 rfl).1).1⟩

end MorningRoutine

namespace MorningRoutine

/-! ### Streak invariants -/

/-- A single stats update never lowers `bestStreak`. -/
theorem updateStats_bestStreak_mono (st : Storage) (today : DateKey)
    (p : CompletedTasks) :
    (StorageManager.getStats st).bestStreak ≤
      (StorageManager.getStats (StorageManager.updateStats st today p)).bestStreak := by
  by_cases h1 : p.card = routine.length
  · by_cases h2 : st.lastCompletedDate = some today
    · rw [updateStats_of_lastCompleted_today st today p h2]
    · unfold StorageManager.updateStats
      rw [if_pos h1, if_pos h2]
      simp only [StorageManager.getStats, Option.getD_some]
      split_ifs <;> omega
  · rw [updateStats_of_card_ne st today p h1]

/-- A single stats update keeps `bestStreak ≥ currentStreak` once it holds. -/
theorem updateStats_invariant_step (st : Storage) (today : DateKey)
    (p : CompletedTasks)
    (h : (StorageManager.getStats st).streak ≤
      (StorageManager.getStats st).bestStreak) :
    (StorageManager.getStats (StorageManager.updateStats st today p)).streak ≤
      (StorageManager.getStats (StorageManager.updateStats st today p)).bestStreak := by
  by_cases h1 : p.card = routine.length
  · by_cases h2 : st.lastCompletedDate = some today
    · rw [updateStats_of_lastCompleted_today st today p h2]
      exact h
    · unfold StorageManager.updateStats
      rw [if_pos h1, if_pos h2]
      simp only [StorageManager.getStats, Option.getD_some]
      split_ifs <;> omega
  · rw [updateStats_of_card_ne st today p h1]
    exact h

/-- C5: across every sequence of stats updates from a state where
`bestStreak ≥ currentStreak`, `bestStreak` is monotonically non-decreasing and
the invariant `bestStreak ≥ currentStreak` holds after the sequence (hence,
instantiating prefixes, after every update). -/
theorem bestStreak_mono_and_invariant (st : Storage)
    (l : List (DateKey × CompletedTasks))
    (h : (StorageManager.getStats st).streak ≤
      (StorageManager.getStats st).bestStreak) :
    (StorageManager.getStats st).bestStreak ≤
      (StorageManager.getStats (applyUpdates st l)).bestStreak ∧
    (StorageManager.getStats (applyUpdates st l)).streak ≤
      (StorageManager.getStats (applyUpdates st l)).bestStreak := by
  induction l generalizing st with
  | nil => exact ⟨le_refl _, h⟩
  | cons hd tl ih =>
      have hmono := updateStats_bestStreak_mono st hd.1 hd.2
      have hinv := updateStats_invariant_step st hd.1 hd.2 h
      have hrest := ih (StorageManager.updateStats st hd.1 hd.2) hinv
      have hfold : applyUpdates st (hd :: tl) =
          applyUpdates (StorageManager.updateStats st hd.1 hd.2) tl := rfl
      rw [hfold]
      exact ⟨le_trans hmono hrest.1, hrest.2⟩

/-- C5, witness: one full-completion update on fresh storage. -/
theorem bestStreak_mono_and_invariant_witness :
    ((StorageManager.getStats initialStorage).streak ≤
        (StorageManager.getStats initialStorage).bestStreak) ∧
    ((StorageManager.getStats
        (applyUpdates initialStorage [(0, ({1, 2, 3, 4, 5, 6} : Finset ℕ))])).streak ≤
      (StorageManager.getStats
        (applyUpdates initialStorage [(0, ({1, 2, 3, 4, 5, 6} : Finset ℕ))])).bestStreak) :=
  ⟨by decide,
    (bestStreak_mono_and_invariant initialStorage
      [(0, ({1, 2, 3, 4, 5, 6} : Finset ℕ))] (by decide)).2⟩

/-! ### Toggle parity -/

/-- One toggle flips exactly the toggled id's membership. -/
theorem toggleTask_mem (s : AppState) (today : DateKey) (i t : ℕ) :
    (t ∈ (toggleTask s today i).completedTasks) ↔
      (if i = t then t ∉ s.completedTasks else t ∈ s.completedTasks) := by
  by_cases hi : i ∈ s.completedTasks
  · by_cases hit : i = t
    · subst hit
      simp [toggleTask, hi]
    · simp [toggleTask, hi, hit, Finset.mem_erase, Ne.symm hit]
  · by_cases hit : i = t
    · subst hit
      simp [toggleTask, hi]
    · simp [toggleTask, hi, hit, Finset.mem_insert, Ne.symm hit]

/-- After a toggle sequence, membership is preserved iff the id was toggled an
even number of times. -/
theorem toggleSeq_mem (l : List ℕ) (s : AppState) (today : DateKey) (t : ℕ) :
    (t ∈ (toggleSeq s today l).completedTasks) ↔
      ((t ∈ s.completedTasks) ↔ Even (l.count t)) := by
  induction l generalizing s with
  | nil => simp [toggleSeq]
  | cons a l ih =>
      have hfold : toggleSeq s today (a :: l) =
          toggleSeq (toggleTask s today a) today l := rfl
      rw [hfold, ih, toggleTask_mem]
      by_cases hat : a = t
      · subst hat
        rw [if_pos rfl]
        have hc : (a :: l).count a = l.count a + 1 := by
          simp [List.count_cons]
        rw [hc, Nat.even_add_one]
        tauto
      · rw [if_neg hat]
        have hc : (a :: l).count t = l.count t := by
          simp [List.count_cons, Ne.symm hat]
        rw [hc]

/-- C8: for every toggle sequence applied to an initially empty completion map,
the final membership of an id is true iff it was toggled an odd number of
times. -/
theorem toggleSeq_parity (l : List ℕ) (s : AppState) (today : DateKey) (t : ℕ)
    (h : s.completedTasks = ∅) :
    (t ∈ (toggleSeq s today l).completedTasks) ↔ Odd (l.count t) := by
  rw [toggleSeq_mem, h]
  simp only [Finset.not_mem_empty, false_iff]
  exact Nat.not_even_iff_odd

/-- C8, witness: toggling id 2 three times in a four-toggle sequence. -/
theorem toggleSeq_parity_witness :
    (initialState.completedTasks = ∅) ∧
    ((2 ∈ (toggleSeq initialState 0 [1, 2, 2, 2]).completedTasks) ↔
      Odd ([1, 2, 2, 2].count 2)) :=
  ⟨rfl, toggleSeq_parity [1, 2, 2, 2] initialState 0 2 rfl⟩

/-! ### Reset -/

/-- C9: `resetRoutine` always yields an empty completion map and an idle timer
engine, deletes exactly today's persisted record, and leaves the stats record
and the last completed date untouched. -/
theorem resetRoutine_spec (s : AppState) (today : DateKey) :
    totalCompleted (resetRoutine s today) = 0 ∧
    (resetRoutine s today).currentTimer = none ∧
    (resetRoutine s today).isRunning = false ∧
    (resetRoutine s today).timeLeft = 0 ∧
    (resetRoutine s today).storage.records.lookup today = none ∧
    (∀ k, k ≠ today →
      (resetRoutine s today).storage.records.lookup k =
        s.storage.records.lookup k) ∧
    (resetRoutine s today).storage.statsRec = s.storage.statsRec ∧
    (resetRoutine s today).storage.lastCompletedDate =
      s.storage.lastCompletedDate := by
  refine ⟨rfl, rfl, rfl, rfl, lookup_filter_self _ _, ?_, rfl, rfl⟩
  intro k hk
  exact lookup_filter_ne _ _ _ hk

/-- C9, witness: resetting on day 0 keeps the record stored under day 3. -/
theorem resetRoutine_spec_witness :
    totalCompleted (resetRoutine
      ⟨{1}, some 1, 30, true, defaultStats, ⟨[(3, {1})], none, none⟩⟩ 0) = 0 ∧
    (resetRoutine ⟨{1}, some 1, 30, true, defaultStats,
        ⟨[(3, {1})], none, none⟩⟩ 0).storage.records.lookup 3 =
      (⟨{1}, some 1, 30, true, defaultStats,
        ⟨[(3, {1})], none, none⟩⟩ : AppState).storage.records.lookup 3 :=
  ⟨(resetRoutine_spec
      ⟨{1}, some 1, 30, true, defaultStats, ⟨[(3, {1})], none, none⟩⟩ 0).1,
    (resetRoutine_spec
      ⟨{1}, some 1, 30, true, defaultStats, ⟨[(3, {1})], none, none⟩⟩ 0).2.2.2.2.2.1
      3 (by decide)⟩

/-! ### Timer pause -/

/-- C10: starting the timer on the task it is already running for only clears
the running flag; the target, the countdown, the completion map, the stats
view and the persisted storage are all unchanged. -/
theorem startTimer_pause (s : AppState) (taskId : ℕ) (d : ℚ)
    (ht : s.currentTimer = some taskId) (hr : s.isRunning = true) :
    (startTimer s taskId d).isRunning = false ∧
    (startTimer s taskId d).currentTimer = s.currentTimer ∧
    (startTimer s taskId d).timeLeft = s.timeLeft ∧
    (startTimer s taskId d).completedTasks = s.completedTasks ∧
    (startTimer s taskId d).storage = s.storage ∧
    (startTimer s taskId d).stats = s.stats := by
  unfold startTimer
  rw [if_pos ⟨ht, hr⟩]
  exact ⟨rfl, rfl, rfl, rfl, rfl, rfl⟩

/-- C10, witness: pausing a running timer on task 1. -/
theorem startTimer_pause_witness :
    ((⟨∅, some 1, 60, true, defaultStats, initialStorage⟩ :
        AppState).currentTimer = some 1) ∧
    ((⟨∅, some 1, 60, true, defaultStats, initialStorage⟩ :
        AppState).isRunning = true) ∧
    (startTimer ⟨∅, some 1, 60, true, defaultStats, initialStorage⟩ 1
        5).isRunning = false :=
  ⟨rfl, rfl,
    (startTimer_pause ⟨∅, some 1, 60, true, defaultStats, initialStorage⟩ 1 5
      rfl rfl).1⟩

end MorningRoutine

namespace MorningRoutine

/-! ### Timer countdown -/

/-- Rewriting the countdown field respects equality of the new value. -/
theorem timeLeft_update_congr (s : AppState) (a b : ℚ) (h : a = b) :
    ({ s with timeLeft := a } : AppState) = { s with timeLeft := b } := by
  rw [h]

/-- Starting on a task the engine is not already running retargets the engine
with a fresh countdown. -/
theorem startTimer_start (s : AppState) (taskId : ℕ) (d : ℚ)
    (h : ¬(s.currentTimer = some taskId ∧ s.isRunning = true)) :
    startTimer s taskId d =
      { s with currentTimer := some taskId, timeLeft := d * 60,
               isRunning := true } := by
  unfold startTimer
  rw [if_neg h]

/-- While strictly more seconds remain than ticks are taken, ticking only
decrements the countdown. -/
theorem tickN_running (today : DateKey) (k : ℕ) :
    ∀ s : AppState, s.isRunning = true → (k : ℚ) < s.timeLeft →
      tickN k s today = { s with timeLeft := s.timeLeft - k } := by
  induction k with
  | zero =>
      intro s hr hk
      show s = _
      simp
  | succ n ih =>
      intro s hr hk
      have hcast : ((n + 1 : ℕ) : ℚ) = (n : ℚ) + 1 := by
        push_cast
        ring
      have hn0 : (0 : ℚ) ≤ (n : ℚ) := Nat.cast_nonneg n
      have hk' : (n : ℚ) + 1 < s.timeLeft := by
        rw [hcast] at hk
        exact hk
      have h0 : (0 : ℚ) < s.timeLeft := by linarith
      have h1 : (0 : ℚ) < s.timeLeft - 1 := by linarith
      have hstep : tick s today = { s with timeLeft := s.timeLeft - 1 } := by
        unfold tick
        rw [if_pos ⟨hr, h0⟩]
        unfold timerEffect
        rw [if_pos ⟨hr, h1⟩]
      have hiter : tickN (n + 1) s today = tickN n (tick s today) today := by
        unfold tickN
        exact Function.iterate_succ_apply _ _ _
      rw [hiter, hstep, ih { s with timeLeft := s.timeLeft - 1 } hr
        (by show (n : ℚ) < s.timeLeft - 1; linarith)]
      exact timeLeft_update_congr s _ _ (by rw [hcast]; ring)

/-- C6: starting a one-minute timer and ticking 59 times leaves the engine
running on the task with one second left and the task not completed; the 60th
tick completes the task and idles the engine. -/
theorem timer_one_minute (s : AppState) (today : DateKey) (t : ℕ)
    (hstart : ¬(s.currentTimer = some t ∧ s.isRunning = true))
    (hnc : t ∉ s.completedTasks) :
    ((tickN 59 (startTimer s t 1) today).currentTimer = some t ∧
      (tickN 59 (startTimer s t 1) today).isRunning = true ∧
      (tickN 59 (startTimer s t 1) today).timeLeft = 1 ∧
      t ∉ (tickN 59 (startTimer s t 1) today).completedTasks) ∧
    ((tickN 60 (startTimer s t 1) today).currentTimer = none ∧
      (tickN 60 (startTimer s t 1) today).isRunning = false ∧
      (tickN 60 (startTimer s t 1) today).timeLeft = 0 ∧
      t ∈ (tickN 60 (startTimer s t 1) today).completedTasks) := by
  have hs1 : startTimer s t 1 =
      { s with currentTimer := some t, timeLeft := 1 * 60,
               isRunning := true } :=
    startTimer_start s t 1 hstart
  have h59 : tickN 59 (startTimer s t 1) today =
      { s with currentTimer := some t, timeLeft := 1 * 60 - 59,
               isRunning := true } := by
    rw [hs1]
    exact tickN_running today 59 _ rfl (by norm_num)
  have h60 : tickN 60 (startTimer s t 1) today =
      tick (tickN 59 (startTimer s t 1) today) today := by
    unfold tickN
    exact Function.iterate_succ_apply' _ _ _
  have htick : tickN 60 (startTimer s t 1) today =
      timerEffect { s with currentTimer := some t, timeLeft := 1 * 60 - 59 - 1,
                           isRunning := true } today := by
    rw [h60, h59]
    unfold tick
    rw [if_pos ⟨rfl, (by norm_num : (0 : ℚ) < 1 * 60 - 59)⟩]
  have heff : timerEffect
      { s with currentTimer := some t, timeLeft := 1 * 60 - 59 - 1,
               isRunning := true } today =
      { s with
          completedTasks := insert t s.completedTasks,
          currentTimer := none,
          timeLeft := 1 * 60 - 59 - 1,
          isRunning := false,
          storage := StorageManager.saveTodayProgress s.storage today
            (insert t s.completedTasks),
          stats := StorageManager.getStats
            (StorageManager.saveTodayProgress s.storage today
              (insert t s.completedTasks)) } := by
    unfold timerEffect
    rw [if_neg (by norm_num), if_pos ⟨(by norm_num : (1 : ℚ) * 60 - 59 - 1 = 0), rfl⟩]
  refine ⟨⟨?_, ?_, ?_, ?_⟩, ?_, ?_, ?_, ?_⟩
  · rw [h59]
  · rw [h59]
  · rw [h59]
    norm_num
  · rw [h59]
    exact hnc
  · rw [htick, heff]
  · rw [htick, heff]
  · rw [htick, heff]
    norm_num
  · rw [htick, heff]
    exact Finset.mem_insert_self t s.completedTasks

/-- C6, witness: task 1 from the initial state. -/
theorem timer_one_minute_witness :
    (¬(initialState.currentTimer = some 1 ∧ initialState.isRunning = true)) ∧
    (1 ∉ initialState.completedTasks) ∧
    (tickN 60 (startTimer initialState 1 1) 0).currentTimer = none :=
  ⟨by decide, by decide,
    (timer_one_minute initialState 0 1 (by decide) (by decide)).2.1⟩

/-- C7: for two distinct routine tasks A and B, starting A's timer, ticking
fewer times than A's countdown, then starting B's timer leaves A uncredited
and the engine running only on B with B's full countdown. -/
theorem startTimer_switch (s : AppState) (today : DateKey) (A B : RoutineTask)
    (hA : A ∈ routine) (hB : B ∈ routine) (hAB : A.id ≠ B.id)
    (hstart : ¬(s.currentTimer = some A.id ∧ s.isRunning = true))
    (hnc : A.id ∉ s.completedTasks)
    (k : ℕ) (hk : (k : ℚ) < A.duration * 60) :
    (startTimer (tickN k (startTimer s A.id A.duration) today) B.id
        B.duration).currentTimer = some B.id ∧
    (startTimer (tickN k (startTimer s A.id A.duration) today) B.id
        B.duration).timeLeft = B.duration * 60 ∧
    (startTimer (tickN k (startTimer s A.id A.duration) today) B.id
        B.duration).isRunning = true ∧
    A.id ∉ (startTimer (tickN k (startTimer s A.id A.duration) today) B.id
        B.duration).completedTasks := by
  have hs1 : startTimer s A.id A.duration =
      { s with currentTimer := some A.id, timeLeft := A.duration * 60,
               isRunning := true } :=
    startTimer_start s A.id A.duration hstart
  have h2 : tickN k (startTimer s A.id A.duration) today =
      { s with currentTimer := some A.id, timeLeft := A.duration * 60 - k,
               isRunning := true } := by
    rw [hs1]
    exact tickN_running today k _ rfl hk
  have h3 : ¬((tickN k (startTimer s A.id A.duration) today).currentTimer =
        some B.id ∧
      (tickN k (startTimer s A.id A.duration) today).isRunning = true) := by
    rw [h2]
    rintro ⟨hcon, -⟩
    exact hAB (Option.some.inj hcon)
  have h4 : startTimer (tickN k (startTimer s A.id A.duration) today) B.id
        B.duration =
      { (tickN k (startTimer s A.id A.duration) today) with
          currentTimer := some B.id, timeLeft := B.duration * 60,
          isRunning := true } :=
    startTimer_start _ B.id B.duration h3
  rw [h4, h2]
  exact ⟨rfl, rfl, rfl, hnc⟩

/-- C7, witness: the Stretch task (id 2) abandoned for the Breathe task
(id 3) with no ticks taken. -/
theorem startTimer_switch_witness :
    ((⟨2, "Stretch", "Quick stretches", 3, Category.fitness⟩ : RoutineTask) ∈
        routine) ∧
    (startTimer (tickN 0 (startTimer initialState 2 3) 0) 3 5).currentTimer =
      some 3 :=
  ⟨List.Mem.tail _ (List.Mem.head _),
    (startTimer_switch initialState 0
      ⟨2, "Stretch", "Quick stretches", 3, Category.fitness⟩
      ⟨3, "Breathe", "Deep breathing", 5, Category.mindfulness⟩
      (List.Mem.tail _ (List.Mem.head _))
      (List.Mem.tail _ (List.Mem.tail _ (List.Mem.head _)))
      (by decide) (by decide) (by decide) 0 (by simp)).1⟩

end MorningRoutine
